import Mathlib

set_option allowUnsafeReducibility true
attribute [local semireducible] Rat.mul Rat.inv Rat.sub Rat.add
set_option allowUnsafeReducibility false

/-!
Shallow embedding of `clickclick/console.py` (the table renderer of
zalando/python-clickclick): the value formatter `format`, the relative-time
formatter `format_time`, and the table renderer `print_table`.

Python dynamic values are modelled by the tagged type `Value`; machine floats
are idealised as exact rationals (no claim in this development depends on
binary floating-point rounding of a concrete value).  The wall clock
(`datetime.datetime.now()` / `time.time()`) is injected as an explicit `now`
parameter, and the platform-dependent success predicate of
`datetime.datetime.fromtimestamp` is injected as `convOk`.  A Python exception
escaping a function is modelled by `Option.none`.
-/

namespace Console

/-- Python scalar (and list) values as they may appear in a table cell:
strings, integers, booleans, floats (idealised as rationals), `None`, and
lists (the representative unhashable type). -/
inductive Value where
  | str (s : String)
  | int (n : Int)
  | bool (b : Bool)
  | float (q : ℚ)
  | none
  | list (xs : List Value)

/-- Numeric coercion used by Python arithmetic and numeric equality:
`bool` is an `int` subclass (`True == 1`, `False == 0`). Non-numbers give
`Option.none`. -/
def pyNum : Value → Option ℚ
  | Value.int n => some (n : ℚ)
  | Value.bool b => some (if b then 1 else 0)
  | Value.float q => some q
  | _ => Option.none

mutual
/-- Python `==`: cross-type numeric equality (`True == 1`, `1 == 1.0`),
structural equality on strings and lists, `None == None`, and `False`
across unrelated types. -/
def pyEq : Value → Value → Bool
  | Value.int m, Value.int n => m == n
  | Value.int m, Value.bool b => m == (if b then (1 : Int) else 0)
  | Value.int m, Value.float q => ((m : ℚ)) == q
  | Value.bool a, Value.int n => (if a then (1 : Int) else 0) == n
  | Value.bool a, Value.bool b => a == b
  | Value.bool a, Value.float q => (if a then (1 : ℚ) else 0) == q
  | Value.float p, Value.int n => p == ((n : ℚ))
  | Value.float p, Value.bool b => p == (if b then (1 : ℚ) else 0)
  | Value.float p, Value.float q => p == q
  | Value.str s, Value.str t => s == t
  | Value.none, Value.none => true
  | Value.list xs, Value.list ys => pyEqList xs ys
  | _, _ => false

/-- Elementwise Python `==` on lists. -/
def pyEqList : List Value → List Value → Bool
  | [], [] => true
  | x :: xs, y :: ys => pyEq x y && pyEqList xs ys
  | _, _ => false
end

/-- `val is None`. -/
def isNone : Value → Bool
  | Value.none => true
  | _ => false

/-- `isinstance(val, int) or isinstance(val, float)` — note Python `bool`
is a subclass of `int`, so booleans pass this test. -/
def isNumericType : Value → Bool
  | Value.int _ => true
  | Value.bool _ => true
  | Value.float _ => true
  | _ => false

/-- Whether `hash(v)` succeeds in Python: lists are unhashable. -/
def hashable : Value → Bool
  | Value.list _ => false
  | _ => true

/-- Python `repr` of a float.  Integral floats print as `"N.0"`, matching
Python; Python's shortest-roundtrip decimal rendering of non-integral floats
is not modelled exactly (no claim in this development evaluates one). -/
def floatRepr (q : ℚ) : String :=
  if q.den = 1 then toString q.num ++ ".0"
  else toString q.num ++ "/" ++ toString q.den

mutual
/-- Python `repr`.  For strings the single-quote form is used; Python's
switch to double quotes when the string itself contains a single quote is
not modelled (no claim evaluates such a string). -/
def pyRepr : Value → String
  | Value.str s => "'" ++ s ++ "'"
  | Value.int n => toString n
  | Value.bool b => if b then "True" else "False"
  | Value.float q => floatRepr q
  | Value.none => "None"
  | Value.list xs => "[" ++ pyReprList xs ++ "]"

/-- Comma-separated `repr` of list elements, as in Python's list `repr`. -/
def pyReprList : List Value → String
  | [] => ""
  | [x] => pyRepr x
  | x :: xs => pyRepr x ++ ", " ++ pyReprList xs
end

/-- Python `str(val)`: identity on strings, otherwise the `repr` form
(which is what `str` produces for ints, bools, floats, `None` and lists). -/
def pyStr : Value → String
  | Value.str s => s
  | v => pyRepr v

/-- The string payload of a `Value`, when it is one; applying `len` (or
string slicing) to any other value raises `TypeError`, modelled by
`Option.none`. -/
def asStr : Value → Option String
  | Value.str s => some s
  | _ => Option.none

/-- Round a rational to the nearest integer, ties to even — the rounding
used by Python's `"{:.0f}".format` (IEEE round-half-even, idealised over
exact rationals). -/
def roundHalfEven (q : ℚ) : Int :=
  let f := q.floor
  let r := q - (f : ℚ)
  if r < 1 / 2 then f
  else if 1 / 2 < r then f + 1
  else if f % 2 = 0 then f else f + 1

/-- Python `"{:.0f}".format(q)`: the half-even rounded integer in decimal,
except that a negative value rounding to zero prints as `"-0"`. -/
def pyFmt0 (q : ℚ) : String :=
  let n := roundHalfEven q
  if n = 0 ∧ q < 0 then "-0" else toString n

/-- Python `s.endswith(t)`: `t` is a suffix of `s` (computed on the
character list). -/
def pyEndsWith (s t : String) : Bool :=
  t.data.isSuffixOf s.data

/-- `format_time` from `console.py`:

    def format_time(ts):
        if ts == 0:
            return ''
        now = datetime.datetime.now()
        try:
            dt = datetime.datetime.fromtimestamp(ts)
        except:
            return ts
        diff = now - dt
        s = diff.total_seconds()
        if s > 3600:
            t = '{:.0f}h'.format(s / 3600)
        elif s > 60:
            t = '{:.0f}m'.format(s / 60)
        else:
            t = '{:.0f}s'.format(s)
        return '{} ago'.format(t)

`convOk` is the platform predicate deciding whether
`datetime.datetime.fromtimestamp` succeeds on a numeric timestamp;
`fromtimestamp` on a non-numeric value raises `TypeError`, and the bare
`except:` turns either failure into returning the raw input. `now` is the
injected wall clock in seconds. -/
def format_time (convOk : ℚ → Bool) (now : ℚ) (v : Value) : Value :=
  if pyEq v (Value.int 0) then Value.str ""
  else
    match pyNum v with
    | Option.none => v
    | some ts =>
      if convOk ts then
        let s := now - ts
        if s > 3600 then Value.str (pyFmt0 (s / 3600) ++ "h ago")
        else if s > 60 then Value.str (pyFmt0 (s / 60) ++ "m ago")
        else Value.str (pyFmt0 s ++ "s ago")
      else v

/-- `format` from `console.py`:

    def format(col, val):
        if val is None:
            val = ''
        elif col.endswith('_time'):
            val = format_time(val)
        elif isinstance(val, bool):
            val = 'yes' if val else 'no'
        else:
            val = str(val)
        return val

The result is a `Value` because `format_time` may return its raw non-string
input. -/
def format (convOk : ℚ → Bool) (now : ℚ) (col : String) (val : Value) : Value :=
  match val with
  | Value.none => Value.str ""
  | v =>
    if pyEndsWith col "_time" then format_time convOk now v
    else
      match v with
      | Value.bool b => Value.str (if b then "yes" else "no")
      | v => Value.str (pyStr v)

/-- A Python kwargs dict (used both for user style maps' values and for the
styles `print_table` builds itself, e.g. `{'fg': 'green', 'bold': True}`). -/
abbrev Style := List (String × Value)

/-- A row record: a dict from column identifier to value.  `row.get(col)`
returns `None` both for an absent key and for a stored `None`. -/
abbrev Row := List (String × Value)

/-- `row.get(col)`. -/
def rowGet (row : Row) (col : String) : Value :=
  (row.lookup col).getD Value.none

/-- `styles.get(val, {})` wrapped in `try/except`: Python computes
`hash(val)` first, so an unhashable value raises `TypeError`, which the
renderer catches and turns into the empty style.  Dict lookup compares keys
with Python `==`. -/
def stylesGet (styles : List (Value × Style)) (v : Value) : Style :=
  if hashable v then
    match styles.find? (fun p => pyEq p.1 v) with
    | some p => p.2
    | Option.none => []
  else []

/-- `max_column_widths.get(col, 1000)`. -/
def capOf (maxw : List (String × Int)) (col : String) : Int :=
  (maxw.lookup col).getD 1000

/-- Python `str.title()` word-walk: an alphabetic character is uppercased
when the previous character was not alphabetic and lowercased otherwise
(cased characters restricted to the ASCII model of `Char.isAlpha`). -/
def pyTitleGo : Bool → List Char → List Char
  | _, [] => []
  | prev, c :: cs =>
    if c.isAlpha then (if prev then c.toLower else c.toUpper) :: pyTitleGo true cs
    else c :: pyTitleGo false cs

/-- Python `col.title()`. -/
def pyTitle (s : String) : String :=
  String.mk (pyTitleGo false s.data)

/-- Python `.replace('_', ' ')`; for a single-character pattern this is the
character map. -/
def underscoreToSpace (s : String) : String :=
  String.mk (s.data.map (fun c => if c = '_' then ' ' else c))

/-- The header text of a column:
`titles.get(col, col.title().replace('_', ' '))`. -/
def displayTitle (titles : List (String × String)) (col : String) : String :=
  (titles.lookup col).getD (underscoreToSpace (pyTitle col))

/-- Python `('{:' + str(w) + '}')` / `('{:>' + str(w) + '}')` applied to a
string: pad with spaces on the right (left-aligned) or on the left
(right-aligned) up to width `w`; a string at least `w` long is unchanged.
(Negative widths are undefined-behaviour territory in the original and are
not exercised by any claim.) -/
def pad (right : Bool) (w : Int) (s : String) : String :=
  let n := (w - (s.length : Int)).toNat
  if right then String.mk (List.replicate n ' ' ++ s.data)
  else String.mk (s.data ++ List.replicate n ' ')

/-- Python slicing `s[:k]` for an `int` bound `k`: a negative bound counts
from the end (clamped at zero). -/
def pyTake (s : String) (k : Int) : String :=
  if k < 0 then String.mk (s.data.take (s.length - (-k).toNat))
  else String.mk (s.data.take k.toNat)

/-- Lines 129–131 of `console.py`: truncate an overlong formatted cell,

    if len(val) > max_column_widths.get(col, 1000):
        val = val[:max_column_widths.get(col, 1000) - 2] + '..'
-/
def truncCell (cap : Int) (s : String) : String :=
  if ((s.length : Int)) > cap then pyTake s (cap - 2) ++ ".." else s

/-- The final padded text of one body cell: format the raw value, truncate
if overlong, pad to the column width with the chosen alignment.
`Option.none` models the `TypeError` of `len()` applied to the non-string
fallback value of `format_time`. -/
def cellText (convOk : ℚ → Bool) (now : ℚ) (maxw : List (String × Int))
    (w : Int) (right : Bool) (col : String) (v : Value) : Option String :=
  match asStr (format convOk now col v) with
  | Option.none => Option.none
  | some s => some (pad right w (truncCell (capOf maxw col) s))

/-- Lines 112–125 of `console.py`: the alignment flag and style of one body
cell.

    align = ''
    try:
        style = styles.get(val, {})
    except:
        style = {}
    if val is not None and col.endswith('_time'):
        align = '>'
        diff = time.time() - val
        if diff < 900:
            style = {'fg': 'green', 'bold': True}
        elif diff < 3600:
            style = {'fg': 'green'}
    elif isinstance(val, int) or isinstance(val, float):
        align = '>'

`Option.none` models the uncaught `TypeError` of `time.time() - val` when a
`_time` column holds a non-null non-numeric value. -/
def alignAndStyle (now : ℚ) (styles : List (Value × Style)) (col : String)
    (v : Value) : Option (Bool × Style) :=
  let style := stylesGet styles v
  if (!isNone v) && pyEndsWith col "_time" then
    match pyNum v with
    | Option.none => Option.none
    | some ts =>
      let diff := now - ts
      some (true,
        if diff < 900 then [("fg", Value.str "green"), ("bold", Value.bool true)]
        else if diff < 3600 then [("fg", Value.str "green")]
        else style)
  else if isNumericType v then some (true, style)
  else some (false, style)

/-- One emitted fragment: a `click.secho`/`click.echo` call with its text,
style kwargs, and whether a newline follows. -/
structure Frag where
  text : String
  style : Style
  nl : Bool

/-- The header's `fg='black', bg='white'` style. -/
def headerStyle : Style := [("fg", Value.str "black"), ("bg", Value.str "white")]

/-- One body cell as emitted: the styled padded text followed by the
unstyled single-space separator (`click.echo(' ', nl=False)`, printed after
every column including the last). -/
def renderCell (convOk : ℚ → Bool) (now : ℚ) (styles : List (Value × Style))
    (maxw : List (String × Int)) (w : Int) (col : String) (row : Row) :
    Option (List Frag) :=
  let v := rowGet row col
  match alignAndStyle now styles col v with
  | Option.none => Option.none
  | some (a, st) =>
    match cellText convOk now maxw w a col v with
    | Option.none => Option.none
    | some t => some [⟨t, st, false⟩, ⟨" ", [], false⟩]

/-- The header line's fragments: each title padded left-aligned to the
column width in header colors, with a `│` separator between adjacent
columns (not after the last). -/
def headerGo (titles : List (String × String)) (width : String → Int) :
    List String → List Frag
  | [] => []
  | [col] => [⟨pad false (width col) (displayTitle titles col), headerStyle, false⟩]
  | col :: rest =>
    ⟨pad false (width col) (displayTitle titles col), headerStyle, false⟩ ::
      ⟨"│", headerStyle, false⟩ :: headerGo titles width rest

/-- Lines 93–101 of `console.py`, per column: the computed column width,

    colwidths[col] = len(titles.get(col, col))
    for row in rows:
        colwidths[col] = min(max(colwidths[col], len(format(col, val))),
                             max_column_widths.get(col, 1000))

`Option.none` models `len()` raising on the non-string fallback of
`format_time`. -/
def colWidth (convOk : ℚ → Bool) (now : ℚ) (titles : List (String × String))
    (maxw : List (String × Int)) (rows : List Row) (col : String) : Option Int :=
  rows.foldl
    (fun acc row =>
      acc.bind (fun w =>
        (asStr (format convOk now col (rowGet row col))).map (fun s =>
          min (max w ((s.length : Int))) (capOf maxw col))))
    (some (((titles.lookup col).getD col).length : Int))

/-- `print_table(cols, rows, styles, titles, max_column_widths)` as the list
of emitted fragments: header line, then one line per row; the trailing
`click.echo('')` of each line is the empty-text newline fragment.
`Option.none` models an uncaught exception escaping the call. -/
def print_table (convOk : ℚ → Bool) (now : ℚ) (cols : List String)
    (rows : List Row) (styles : List (Value × Style))
    (titles : List (String × String)) (maxw : List (String × Int)) :
    Option (List Frag) :=
  match cols.mapM (fun col =>
      (colWidth convOk now titles maxw rows col).map (fun w => (col, w))) with
  | Option.none => Option.none
  | some colw =>
    let widths : String → Int := fun c => (colw.lookup c).getD 0
    let header := headerGo titles widths cols ++ [⟨"", [], true⟩]
    match rows.mapM (fun row =>
        (cols.mapM (fun col => renderCell convOk now styles maxw (widths col) col row)).map
          (fun cells => cells.flatten ++ [⟨"", [], true⟩])) with
    | Option.none => Option.none
    | some rlines => some (header ++ rlines.flatten)

/-- The `fromtimestamp` success range of CPython on a typical 64-bit Unix
build: timestamps whose calendar year falls in 1..9999 (UTC). -/
def pyConvOk (ts : ℚ) : Bool :=
  (-62135596800 : ℚ) ≤ ts && ts ≤ 253402300799

/-- The first `k` characters of a string. -/
def strTake (s : String) (k : Nat) : String :=
  String.mk (s.data.take k)

/-- Whether `format_time` can interpret `v` as a calendar time: `v` must be
numeric and within the platform range `convOk`. -/
def canConvert (convOk : ℚ → Bool) (v : Value) : Bool :=
  match pyNum v with
  | some ts => convOk ts
  | Option.none => false

/-! ### Lemmas and claims -/

theorem pyTitleGo_length (l : List Char) : ∀ p, (pyTitleGo p l).length = l.length := by
  induction l with
  | nil => intro p; rfl
  | cons c cs ih =>
    intro p
    simp only [pyTitleGo]
    split <;> simp [ih]

theorem pyTitle_length (s : String) : (pyTitle s).length = s.length :=
  pyTitleGo_length s.data false

theorem underscoreToSpace_length (s : String) : (underscoreToSpace s).length = s.length :=
  List.length_map s.data _

/-- The width initialiser `len(titles.get(col, col))` equals the length of
the displayed header text: `str.title()` and `.replace('_', ' ')` preserve
length. -/
theorem displayTitle_length (titles : List (String × String)) (col : String) :
    (displayTitle titles col).length = ((titles.lookup col).getD col).length := by
  unfold displayTitle
  cases titles.lookup col with
  | none => simp [underscoreToSpace_length, pyTitle_length]
  | some t => rfl

/-- Invariant of the width fold: starting from an accumulator between `L`
and the cap (with `L ≤ cap`), every update
`min (max w len) cap` keeps the width between `L` and the cap. -/
theorem colWidth_inv (convOk : ℚ → Bool) (now : ℚ) (maxw : List (String × Int))
    (col : String) (L : Int) :
    ∀ (rows : List Row) (a : Option Int),
      (∀ w0, a = some w0 → L ≤ w0 ∧ w0 ≤ capOf maxw col) →
      ∀ w,
        rows.foldl
          (fun acc row =>
            acc.bind (fun w =>
              (asStr (format convOk now col (rowGet row col))).map (fun s =>
                min (max w ((s.length : Int))) (capOf maxw col)))) a = some w →
        L ≤ w ∧ w ≤ capOf maxw col := by
  intro rows
  induction rows with
  | nil => intro a ha w hw; exact ha w hw
  | cons r rs ih =>
    intro a ha w hw
    simp only [List.foldl_cons] at hw
    apply ih _ _ w hw
    intro w0 h0
    cases a with
    | none => simp at h0
    | some wa =>
      obtain ⟨h1, h2⟩ := ha wa rfl
      simp only [Option.some_bind] at h0
      cases hs : asStr (format convOk now col (rowGet r col)) with
      | none => rw [hs] at h0; simp at h0
      | some s =>
        rw [hs] at h0
        simp only [Option.map_some', Option.some.injEq] at h0
        subst h0
        refine ⟨le_min (le_trans h1 (le_max_left _ _)) (le_trans h1 h2), min_le_right _ _⟩

/-- Claim C1, counterexample: for column `"column_x"` with configured max
width `5` and an empty row sequence, the computed width is `8` — the length
of the displayed title `"Column X"` — which exceeds the configured max
width, because the cap is only applied inside the per-row update and no row
is ever processed. -/
theorem C1_counterexample :
    colWidth (fun _ => true) 0 [] [("column_x", 5)] [] "column_x" = some 8 ∧
    ((displayTitle [] "column_x").length : Int) = 8 ∧
    capOf [("column_x", 5)] "column_x" = 5 ∧
    ¬ ((8 : Int) ≤ 5) := by
  refine ⟨rfl, by decide, rfl, by decide⟩

/-- Claim C1 (amended): provided the displayed title is no longer than the
configured max width for the column, the computed column width is at least
the length of the displayed title and at most the configured max width
(default 1000), for every sequence of rows including the empty sequence.
(Without that proviso the claim fails: see the counterexample.) -/
theorem C1_width_bounds (convOk : ℚ → Bool) (now : ℚ)
    (titles : List (String × String)) (maxw : List (String × Int))
    (rows : List Row) (col : String) (w : Int)
    (hcap : ((displayTitle titles col).length : Int) ≤ capOf maxw col)
    (hw : colWidth convOk now titles maxw rows col = some w) :
    ((displayTitle titles col).length : Int) ≤ w ∧ w ≤ capOf maxw col := by
  unfold colWidth at hw
  apply colWidth_inv convOk now maxw col _ rows _ _ w hw
  intro w0 h0
  simp only [Option.some.injEq] at h0
  subst h0
  rw [displayTitle_length] at hcap ⊢
  exact ⟨le_refl _, hcap⟩

/-- Witness for C1: column `"a"`, no titles, no configured caps, one row
with value `"hello"`; the computed width `5` is between the title length
`1` and the default cap `1000`. -/
theorem C1_width_bounds_witness :
    ((displayTitle [] "a").length : Int) ≤ 5 ∧ (5 : Int) ≤ capOf [] "a" :=
  C1_width_bounds (fun _ => true) 0 [] [] [[("a", Value.str "hello")]] "a" 5
    (by decide) rfl

theorem strTake_length (s : String) (k : Nat) :
    (strTake s k).length = min k s.length :=
  List.length_take k s.data

theorem strLength_append (a b : String) :
    (a ++ b).length = a.length + b.length :=
  List.length_append a.data b.data

/-- A string at least as long as the requested width is returned unchanged
by the padding format. -/
theorem pad_of_ge (right : Bool) (w : Int) (s : String)
    (h : w ≤ (s.length : Int)) : pad right w s = s := by
  unfold pad
  rw [show (w - (s.length : Int)).toNat = 0 from by omega]
  cases right <;> simp [List.replicate]

/-- Claim C2: for every cell whose formatted string length exceeds the
column's configured max width (a meaningful width, i.e. at least 2, and at
least the computed column width as is always the case for a rendered cell),
the printed cell text is exactly the first `max_width - 2` characters of
the formatted string followed by the two-character marker `".."`. -/
theorem C2_truncation (convOk : ℚ → Bool) (now : ℚ) (maxw : List (String × Int))
    (w : Int) (right : Bool) (col : String) (v : Value) (s : String)
    (hfmt : asStr (format convOk now col v) = some s)
    (hover : capOf maxw col < (s.length : Int))
    (hcap : 2 ≤ capOf maxw col)
    (hw : w ≤ capOf maxw col) :
    cellText convOk now maxw w right col v =
      some (strTake s ((capOf maxw col - 2).toNat) ++ "..") := by
  unfold cellText
  rw [hfmt]
  show some (pad right w (truncCell (capOf maxw col) s)) =
    some (strTake s ((capOf maxw col - 2).toNat) ++ "..")
  have ht : truncCell (capOf maxw col) s = strTake s ((capOf maxw col - 2).toNat) ++ ".." := by
    unfold truncCell pyTake
    rw [if_pos hover, if_neg (by omega)]
    rfl
  rw [ht]
  congr 1
  apply pad_of_ge
  rw [strLength_append, strTake_length]
  have h2 : ("..").length = 2 := rfl
  omega

/-- Witness for C2: the claim's own concrete case — max width 5 and a value
formatting to `"abcdefgh"` yields cell text `"abc.."` (5 characters
total). -/
theorem C2_truncation_witness :
    cellText (fun _ => true) 0 [("a", 5)] 5 false "a" (Value.str "abcdefgh") =
      some (strTake "abcdefgh" ((capOf [("a", 5)] "a" - 2).toNat) ++ "..") ∧
    strTake "abcdefgh" ((capOf [("a", 5)] "a" - 2).toNat) ++ ".." = "abc.." ∧
    ("abc..").length = 5 :=
  ⟨C2_truncation (fun _ => true) 0 [("a", 5)] 5 false "a" (Value.str "abcdefgh")
      "abcdefgh" rfl (by decide) (by decide) (by decide),
    by decide, by decide⟩

/-- Claim C3: a rendered cell is right-aligned iff its raw value passes the
numeric type test (integer — including booleans, which are Python ints —
or floating point) or its column name ends in `"_time"` with a non-null
value; otherwise it is left-aligned; and a null value always yields a
left-aligned cell whose formatted text is the empty string, regardless of
the column. -/
theorem C3_alignment (convOk : ℚ → Bool) (now : ℚ) (styles : List (Value × Style))
    (col : String) (v : Value) (a : Bool) (st : Style)
    (h : alignAndStyle now styles col v = some (a, st)) :
    (a = true ↔
      (isNumericType v = true ∨ (isNone v = false ∧ pyEndsWith col "_time" = true))) ∧
    alignAndStyle now styles col Value.none = some (false, stylesGet styles Value.none) ∧
    format convOk now col Value.none = Value.str "" := by
  refine ⟨?_, ?_, rfl⟩
  · unfold alignAndStyle at h
    by_cases h1 : ((!isNone v) && pyEndsWith col "_time") = true
    · rw [if_pos h1] at h
      simp only [Bool.and_eq_true, Bool.not_eq_true'] at h1
      cases hn : pyNum v with
      | none => rw [hn] at h; exact absurd h (by simp)
      | some ts =>
        rw [hn] at h
        simp only [Option.some.injEq, Prod.mk.injEq] at h
        simp [← h.1, h1.1, h1.2]
    · rw [if_neg h1] at h
      by_cases h2 : isNumericType v = true
      · rw [if_pos h2] at h
        simp only [Option.some.injEq, Prod.mk.injEq] at h
        simp [← h.1, h2]
      · rw [if_neg h2] at h
        simp only [Option.some.injEq, Prod.mk.injEq] at h
        simp only [Bool.and_eq_true, Bool.not_eq_true', not_and] at h1
        constructor
        · intro ha; rw [ha] at h; exact absurd h.1 (by simp)
        · intro hor
          rcases hor with hnum | ⟨hnn, hcol⟩
          · exact absurd hnum h2
          · exact absurd hcol (by simpa [hnn] using h1)
  · unfold alignAndStyle
    rfl

/-- Witness for C3: an integer cell in a plain column is right-aligned, and
a null cell is left-aligned and formats to the empty string. -/
theorem C3_alignment_witness :
    (true = true ↔
      (isNumericType (Value.int 3) = true ∨
        (isNone (Value.int 3) = false ∧ pyEndsWith "a" "_time" = true))) ∧
    alignAndStyle 0 [] "a" Value.none = some (false, stylesGet [] Value.none) ∧
    format (fun _ => true) 0 "a" Value.none = Value.str "" :=
  C3_alignment (fun _ => true) 0 [] "a" (Value.int 3) true [] rfl

/-- Claim C4: for a `_time` column cell with a non-null (numeric) value,
the style is bold green when the elapsed time `now - ts` is below 900
seconds, plain green when it is at least 900 but below 3600 seconds, and
otherwise the base style obtained from the style-map lookup on the raw
value. -/
theorem C4_time_styling (now : ℚ) (styles : List (Value × Style)) (col : String)
    (v : Value) (ts : ℚ)
    (hcol : pyEndsWith col "_time" = true)
    (hnn : isNone v = false)
    (hts : pyNum v = some ts) :
    (now - ts < 900 →
      alignAndStyle now styles col v =
        some (true, [("fg", Value.str "green"), ("bold", Value.bool true)])) ∧
    (900 ≤ now - ts → now - ts < 3600 →
      alignAndStyle now styles col v = some (true, [("fg", Value.str "green")])) ∧
    (3600 ≤ now - ts →
      alignAndStyle now styles col v = some (true, stylesGet styles v)) := by
  unfold alignAndStyle
  rw [hnn, hcol]
  simp only [Bool.not_false, Bool.and_self, if_true, hts]
  refine ⟨?_, ?_, ?_⟩
  · intro h9
    rw [if_pos h9]
  · intro h9 h36
    rw [if_neg (not_lt.mpr h9), if_pos h36]
  · intro h36
    rw [if_neg (by linarith), if_neg (not_lt.mpr h36)]

/-- Witness for C4: a timestamp 500 seconds in the past at wall-clock time
1000 (elapsed 500 < 900) renders bold green. -/
theorem C4_time_styling_witness :
    alignAndStyle 1000 [] "x_time" (Value.int 500) =
      some (true, [("fg", Value.str "green"), ("bold", Value.bool true)]) :=
  (C4_time_styling 1000 [] "x_time" (Value.int 500) 500 rfl rfl rfl).1
    (by norm_num)

/-- For a numeric value, the Python test `ts == 0` holds exactly when the
numeric content is zero. -/
theorem pyEq_zero_iff (v : Value) (ts : ℚ) (h : pyNum v = some ts) :
    pyEq v (Value.int 0) = true ↔ ts = 0 := by
  cases v with
  | int n =>
    simp only [pyNum, Option.some.injEq] at h
    subst h
    simp [pyEq]
  | bool b =>
    simp only [pyNum, Option.some.injEq] at h
    subst h
    cases b <;> simp [pyEq]
  | float q =>
    simp only [pyNum, Option.some.injEq] at h
    subst h
    simp [pyEq]
  | str s => simp [pyNum] at h
  | none => simp [pyNum] at h
  | list xs => simp [pyNum] at h

/-- Claim C5: for every non-zero timestamp accepted by the calendar
conversion, `format_time` buckets the elapsed time `now - ts` with strict
comparisons: above 3600 seconds the result is the rounded number of hours
with `"h ago"`, above 60 (and up to 3600) the rounded number of minutes
with `"m ago"`, otherwise the seconds form; at exactly 3600 seconds the
result is `"60m ago"`, not `"1h ago"`. -/
theorem C5_format_time_buckets (convOk : ℚ → Bool) (now : ℚ) (v : Value) (ts : ℚ)
    (hts : pyNum v = some ts) (h0 : ts ≠ 0) (hc : convOk ts = true) :
    (3600 < now - ts →
      format_time convOk now v =
        Value.str (toString (roundHalfEven ((now - ts) / 3600)) ++ "h ago")) ∧
    (60 < now - ts → now - ts ≤ 3600 →
      format_time convOk now v =
        Value.str (toString (roundHalfEven ((now - ts) / 60)) ++ "m ago")) ∧
    (now - ts ≤ 60 →
      format_time convOk now v = Value.str (pyFmt0 (now - ts) ++ "s ago")) ∧
    (now - ts = 3600 → format_time convOk now v = Value.str "60m ago") := by
  have hz : pyEq v (Value.int 0) = false :=
    Bool.eq_false_iff.mpr (fun hh => h0 ((pyEq_zero_iff v ts hts).mp hh))
  have fmt_pos : ∀ q : ℚ, 0 < q → pyFmt0 q = toString (roundHalfEven q) := by
    intro q hq
    unfold pyFmt0
    rw [if_neg (fun hh => absurd hq (not_lt.mpr hh.2.le))]
  unfold format_time
  rw [if_neg (by simp [hz]), hts]
  simp only [hc, if_true]
  refine ⟨?_, ?_, ?_, ?_⟩
  · intro h36
    rw [if_pos h36, fmt_pos _ (by positivity)]
  · intro h60 h36
    rw [if_neg (not_lt.mpr h36), if_pos h60, fmt_pos _ (by positivity)]
  · intro h60
    rw [if_neg (by linarith), if_neg (not_lt.mpr h60)]
  · intro heq
    rw [if_neg (by rw [heq]; norm_num), if_pos (by rw [heq]; norm_num), heq]
    exact congrArg Value.str (by decide)

/-- Witness for C5: at wall-clock time 3700, the timestamp 100 — elapsed
exactly 3600 seconds — formats to `"60m ago"`. -/
theorem C5_format_time_buckets_witness :
    format_time (fun _ => true) 3700 (Value.int 100) = Value.str "60m ago" :=
  (C5_format_time_buckets (fun _ => true) 3700 (Value.int 100) 100 rfl
      (by norm_num) rfl).2.2.2 (by norm_num)

/-- Claim C6: `format_time(0)` returns the empty string, and every input
that cannot be converted to a calendar time (non-numeric, or numeric but
out of the platform range) is returned unchanged rather than raising. -/
theorem C6_format_time_fallback (convOk : ℚ → Bool) (now : ℚ) :
    format_time convOk now (Value.int 0) = Value.str "" ∧
    ∀ v, pyEq v (Value.int 0) = false → canConvert convOk v = false →
      format_time convOk now v = v := by
  refine ⟨rfl, ?_⟩
  intro v hz hcc
  unfold format_time
  rw [if_neg (by simp [hz])]
  cases hn : pyNum v with
  | none => rfl
  | some ts =>
    have hcf : convOk ts = false := by simpa [canConvert, hn] using hcc
    simp [hcf]

/-- Witness for C6: `format_time` maps the integer 0 to the empty string
and returns the inconvertible string `"abc"` unchanged. -/
theorem C6_format_time_fallback_witness :
    format_time (fun _ => true) 0 (Value.int 0) = Value.str "" ∧
    format_time (fun _ => true) 0 (Value.str "abc") = Value.str "abc" :=
  ⟨(C6_format_time_fallback (fun _ => true) 0).1,
    (C6_format_time_fallback (fun _ => true) 0).2 (Value.str "abc") rfl rfl⟩

/-- Claim C7, counterexample: in a column named `"x_time"`, the boolean
`True` does not format to `"yes"`: the `_time` branch precedes the boolean
branch, so `True` is treated as the timestamp 1 and (with the clock at
7200) formats to `"2h ago"`. -/
theorem C7_counterexample :
    asStr (format (fun _ => true) 7200 "x_time" (Value.bool true)) = some "2h ago" ∧
    some "2h ago" ≠ some ("yes" : String) := by
  exact ⟨by decide, by decide⟩

/-- Claim C7 (amended): for every column identifier not ending in
`"_time"`, `format(column, True)` returns `"yes"` and
`format(column, False)` returns `"no"`.  (In a `_time` column the boolean
is instead interpreted as a timestamp: see the counterexample.) -/
theorem C7_bool_format (convOk : ℚ → Bool) (now : ℚ) (col : String)
    (hcol : pyEndsWith col "_time" = false) :
    format convOk now col (Value.bool true) = Value.str "yes" ∧
    format convOk now col (Value.bool false) = Value.str "no" := by
  constructor <;> · unfold format; rw [hcol]; simp

/-- Witness for C7 (amended): in the plain column `"a"`, `True` formats to
`"yes"` and `False` to `"no"`. -/
theorem C7_bool_format_witness :
    format (fun _ => true) 0 "a" (Value.bool true) = Value.str "yes" ∧
    format (fun _ => true) 0 "a" (Value.bool false) = Value.str "no" :=
  C7_bool_format (fun _ => true) 0 "a" rfl

/-- Claim C8: `print_table` is documented never to raise for malformed cell
data, but a numeric timestamp outside the convertible calendar range in a
`_time` column makes the width pass apply `len()` to the non-string
fallback value returned by `format_time`, raising `TypeError` (modelled by
`Option.none`). -/
theorem C8_print_table_raises :
    print_table pyConvOk 1760000000 ["foo_time"]
      [[("foo_time", Value.int 1000000000000000000000000000000)]] [] [] [] =
      Option.none :=
  Option.isNone_iff_eq_none.mp (by decide)

/-- Claim C9: with the wall clock injected as an explicit parameter, the
renderer is a pure function of its inputs, so two calls of `print_table`
with the same columns, rows, options and clock produce identical output. -/
theorem C9_deterministic (convOk : ℚ → Bool) (now : ℚ) (cols : List String)
    (rows : List Row) (styles : List (Value × Style))
    (titles : List (String × String)) (maxw : List (String × Int)) :
    print_table convOk now cols rows styles titles maxw =
      print_table convOk now cols rows styles titles maxw := rfl

/-- Claim C10: in a column not ending in `"_time"`, a boolean value passes
the `isinstance(val, int)` alignment test (Python booleans are ints), so it
is right-aligned with the base style, and it formats to `"yes"`/`"no"`. -/
theorem C10_bool_alignment (convOk : ℚ → Bool) (now : ℚ)
    (styles : List (Value × Style)) (col : String) (b : Bool)
    (hcol : pyEndsWith col "_time" = false) :
    alignAndStyle now styles col (Value.bool b) =
      some (true, stylesGet styles (Value.bool b)) ∧
    format convOk now col (Value.bool b) =
      Value.str (if b then "yes" else "no") := by
  constructor
  · unfold alignAndStyle
    rw [hcol]
    simp [isNumericType]
  · unfold format
    rw [hcol]
    simp

/-- Witness for C10: `True` in the plain column `"ok"` is right-aligned
with empty base style and formats to `"yes"`. -/
theorem C10_bool_alignment_witness :
    alignAndStyle 0 [] "ok" (Value.bool true) =
      some (true, stylesGet [] (Value.bool true)) ∧
    format (fun _ => true) 0 "ok" (Value.bool true) =
      Value.str (if true then "yes" else "no") :=
  C10_bool_alignment (fun _ => true) 0 [] "ok" true rfl

end Console
